import Mathlib

/-!
Shallow embedding of `src/client/src-tauri/src/lib.rs` of the
angular-momentum repository: the `greet` command and the
`on_menu_event` handler installed by `run`, which, on the
`"check_updates"` identifier, spawns a background task that acquires the
updater client, checks for an update, and walks the user through
confirmation, download-and-install and result dialogs.

External collaborators (the updater plugin, the dialog plugin, the user
at the confirmation dialog) are modelled as an environment record: the
result of acquiring the updater, the outcome of the check, the answer
the user gives to the confirmation dialog, and the result of
download-and-install.  The handler itself is embedded as a pure function
from that environment to the trace of observable effects it performs:
dialogs shown, download-and-install attempts made, and (never emitted by
this code) application restarts.
-/

/-- Icon class of a message dialog: `MessageDialogKind` in the dialog
plugin.  The code only ever sets `Error`; when unset the plugin default
is informational. -/
inductive DialogKind where
  | info : DialogKind
  | err : DialogKind
deriving DecidableEq

/-- Button set of a message dialog: `MessageDialogButtons` in the dialog
plugin.  The code only ever sets `OkCancel` (on the update confirmation
dialog); when unset the plugin default is a single acknowledge button. -/
inductive DialogButtons where
  | ok : DialogButtons
  | okCancel : DialogButtons
deriving DecidableEq

/-- A message dialog as configured at one of the `.dialog()...blocking_show()`
call sites: its title, message, icon class and button set.  Every dialog in
this file is shown with `blocking_show`. -/
structure Dialog where
  title : String
  message : String
  kind : DialogKind
  buttons : DialogButtons
deriving DecidableEq

/-- An observable effect of the update flow: showing a dialog, attempting
`download_and_install`, or restarting the application (offered by the
process plugin; never called by this code). -/
inductive Event where
  | dialog : Dialog → Event
  | installAttempt : Event
  | restart : Event
deriving DecidableEq

/-- Outcome of `updater.check().await` as matched in the source:
`Ok(Some(update))` carrying a version, `Ok(None)`, or `Err(e)`. -/
inductive CheckOutcome where
  | available : String → CheckOutcome
  | upToDate : CheckOutcome
  | failed : String → CheckOutcome
deriving DecidableEq

/-- The environment of one run of the background task spawned by the
menu-event handler: everything the surrounding framework and the user
decide.  Errors are represented by their display string (`{}`-formatted
reason). -/
structure UpdaterEnv where
  acquire : Except String Unit
  check : CheckOutcome
  userConfirms : Bool
  install : Except String Unit

/-- The confirmation dialog shown on `Ok(Some(update))`: the code sets the
message naming the version, the title, and `OkCancel` buttons; the kind is
left at the informational default. -/
def confirmDialog (version : String) : Dialog :=
  { title := "Update Available"
    message := "Version " ++ version ++ " is available. Would you like to install it now?"
    kind := DialogKind.info
    buttons := DialogButtons.okCancel }

/-- The dialog shown when `download_and_install` returns `Err(e)`. -/
def installErrorDialog (e : String) : Dialog :=
  { title := "Update Error"
    message := "Failed to install update: " ++ e
    kind := DialogKind.err
    buttons := DialogButtons.ok }

/-- The dialog shown when `download_and_install` succeeds. -/
def updateCompleteDialog : Dialog :=
  { title := "Update Complete"
    message := "Update installed. Please restart the application."
    kind := DialogKind.info
    buttons := DialogButtons.ok }

/-- The dialog shown on `Ok(None)`: no update available. -/
def noUpdatesDialog : Dialog :=
  { title := "No Updates"
    message := "You\x27re running the latest version."
    kind := DialogKind.info
    buttons := DialogButtons.ok }

/-- The dialog shown when `updater.check()` returns `Err(e)`. -/
def checkErrorDialog (e : String) : Dialog :=
  { title := "Update Error"
    message := "Failed to check for updates: " ++ e
    kind := DialogKind.err
    buttons := DialogButtons.ok }

/-- The dialog shown when `app_handle.updater()` returns `Err(e)`. -/
def updaterUnavailableDialog (e : String) : Dialog :=
  { title := "Update Error"
    message := "Updater not available: " ++ e
    kind := DialogKind.err
    buttons := DialogButtons.ok }

/-- The body of the background task spawned for the `"check_updates"`
menu event, translated match-for-match from the source: match on
`app_handle.updater()`, then on `updater.check().await`; on an available
update show the confirmation dialog, and if the user confirms, attempt
`download_and_install` and show the failure or success dialog. -/
def updateFlow (env : UpdaterEnv) : List Event :=
  match env.acquire with
  | Except.ok _ =>
    match env.check with
    | CheckOutcome.available version =>
      if env.userConfirms then
        match env.install with
        | Except.error e =>
          [Event.dialog (confirmDialog version), Event.installAttempt,
           Event.dialog (installErrorDialog e)]
        | Except.ok _ =>
          [Event.dialog (confirmDialog version), Event.installAttempt,
           Event.dialog updateCompleteDialog]
      else
        [Event.dialog (confirmDialog version)]
    | CheckOutcome.upToDate => [Event.dialog noUpdatesDialog]
    | CheckOutcome.failed e => [Event.dialog (checkErrorDialog e)]
  | Except.error e => [Event.dialog (updaterUnavailableDialog e)]

/-- The menu-event handler: on identifier `"check_updates"` it spawns the
background task (modelled as `some` of the trace that task produces);
on every other identifier it does nothing (`none`: no task, no effects). -/
def onMenuEvent (id : String) (env : UpdaterEnv) : Option (List Event) :=
  if id = "check_updates" then some (updateFlow env) else none

/-- Whether an event is a `download_and_install` attempt. -/
def Event.isInstall : Event → Bool
  | Event.installAttempt => true
  | _ => false

/-- Whether an event is a dialog (of any kind). -/
def Event.isDialog : Event → Bool
  | Event.dialog _ => true
  | _ => false

/-- Whether an event is a dialog with the given title. -/
def Event.isDialogTitled (t : String) : Event → Bool
  | Event.dialog d => d.title = t
  | _ => false

/-- Whether an event is a dialog of the error icon class. -/
def Event.isErrorDialog : Event → Bool
  | Event.dialog d => d.kind = DialogKind.err
  | _ => false

/-- Number of `download_and_install` attempts in a trace. -/
def installCount (l : List Event) : Nat :=
  (l.filter Event.isInstall).length

/-- Number of dialogs in a trace. -/
def dialogCount (l : List Event) : Nat :=
  (l.filter Event.isDialog).length

/-- Number of dialogs with a given title in a trace. -/
def dialogTitledCount (t : String) (l : List Event) : Nat :=
  (l.filter (Event.isDialogTitled t)).length

/-- Number of error-class dialogs in a trace. -/
def errorDialogCount (l : List Event) : Nat :=
  (l.filter Event.isErrorDialog).length

/-- One-placeholder substitution underlying the `format!` macro as used by
`greet`: scan the template character list for the first `\x7b\x7d`
placeholder and splice in the argument verbatim.  The argument itself is
never rescanned, so formatting characters inside it are inert, exactly as
with `format!` in Rust. -/
def substFmt (arg : String) : List Char → List Char
  | [] => []
  | [c] => [c]
  | c :: c2 :: rest =>
    if c = Char.ofNat 123 ∧ c2 = Char.ofNat 125 then arg.data ++ rest
    else c :: substFmt arg (c2 :: rest)

/-- `format!` with a single `\x7b\x7d` placeholder and a single string
argument, as called by `greet`. -/
def rustFormat1 (template arg : String) : String :=
  String.mk (substFmt arg template.data)

/-- The `greet` command from the source:
`format!("Hello, \x7b\x7d! You\x27ve been greeted from Rust!", name)`. -/
def greet (name : String) : String :=
  rustFormat1 "Hello, \x7b\x7d! You\x27ve been greeted from Rust!" name

/-- Concrete environment: update available, user confirms, install succeeds. -/
def envConfirmOk : UpdaterEnv :=
  { acquire := Except.ok ()
    check := CheckOutcome.available "2.0.0"
    userConfirms := true
    install := Except.ok () }

/-- Concrete environment: update available, user confirms, install fails. -/
def envConfirmFail : UpdaterEnv :=
  { acquire := Except.ok ()
    check := CheckOutcome.available "2.0.0"
    userConfirms := true
    install := Except.error "signature mismatch" }

/-- Concrete environment: update available, user declines. -/
def envDecline : UpdaterEnv :=
  { acquire := Except.ok ()
    check := CheckOutcome.available "2.0.0"
    userConfirms := false
    install := Except.ok () }

/-- Concrete environment: already on the latest version. -/
def envUpToDate : UpdaterEnv :=
  { acquire := Except.ok ()
    check := CheckOutcome.upToDate
    userConfirms := false
    install := Except.ok () }

/-- Concrete environment: the update check itself fails. -/
def envCheckFail : UpdaterEnv :=
  { acquire := Except.ok ()
    check := CheckOutcome.failed "x"
    userConfirms := false
    install := Except.ok () }

/-- Concrete environment: the updater client cannot be acquired. -/
def envUnavail : UpdaterEnv :=
  { acquire := Except.error "x"
    check := CheckOutcome.upToDate
    userConfirms := false
    install := Except.ok () }

example :
    updateFlow envConfirmOk =
      [Event.dialog (confirmDialog "2.0.0"), Event.installAttempt,
       Event.dialog updateCompleteDialog] := by
  decide

example : installCount (updateFlow envConfirmOk) = 1 := by
  decide

example : greet "World" = "Hello, World! You\x27ve been greeted from Rust!" := by
  decide

example :
    greet "a\x7b\x7db" = "Hello, a\x7b\x7db! You\x27ve been greeted from Rust!" := by
  decide

set_option maxRecDepth 4000

/-- Any dialog appearing in a trace of the update flow is one of the six
dialogs configured at the six call sites of the source. -/
theorem dialog_shape_of_mem (env : UpdaterEnv) (d : Dialog)
    (h : Event.dialog d ∈ updateFlow env) :
    (∃ v, d = confirmDialog v) ∨ (∃ e, d = installErrorDialog e) ∨
    d = updateCompleteDialog ∨ d = noUpdatesDialog ∨
    (∃ e, d = checkErrorDialog e) ∨ (∃ e, d = updaterUnavailableDialog e) := by
  obtain ⟨acq, chk, conf, inst⟩ := env
  cases acq <;> cases chk <;> cases conf <;> cases inst <;>
    simp [updateFlow] at h <;> tauto

/-- The update flow never emits a restart event: the code never calls the
process plugin to relaunch the application. -/
theorem restart_not_mem_updateFlow (env : UpdaterEnv) :
    Event.restart ∉ updateFlow env := by
  obtain ⟨acq, chk, conf, inst⟩ := env
  cases acq <;> cases chk <;> cases conf <;> cases inst <;> simp [updateFlow]

/-- C1: when the handler runs for "check_updates", the updater is acquired,
the check reports an available update and the user confirms, exactly one
download-and-install attempt is made and exactly one follow-up dialog is
shown: the Update Complete dialog if the install succeeded, the Update
Error dialog if it failed, never both. -/
theorem C1_confirm_one_install_one_result (env : UpdaterEnv) (v : String)
    (h1 : env.acquire = Except.ok ()) (h2 : env.check = CheckOutcome.available v)
    (h3 : env.userConfirms = true) :
    onMenuEvent "check_updates" env = some (updateFlow env) ∧
    installCount (updateFlow env) = 1 ∧
    (env.install = Except.ok () →
      dialogTitledCount "Update Complete" (updateFlow env) = 1 ∧
      dialogTitledCount "Update Error" (updateFlow env) = 0) ∧
    (∀ e, env.install = Except.error e →
      dialogTitledCount "Update Complete" (updateFlow env) = 0 ∧
      dialogTitledCount "Update Error" (updateFlow env) = 1) := by
  obtain ⟨acq, chk, conf, inst⟩ := env
  dsimp only at h1 h2 h3
  subst h1; subst h2; subst h3
  refine ⟨rfl, ?_⟩
  cases inst with
  | ok u =>
    cases u
    simp [updateFlow, installCount, dialogTitledCount, Event.isInstall,
      Event.isDialogTitled, confirmDialog, updateCompleteDialog, installErrorDialog]
  | error e =>
    simp [updateFlow, installCount, dialogTitledCount, Event.isInstall,
      Event.isDialogTitled, confirmDialog, updateCompleteDialog, installErrorDialog]

/-- C1 witness: the hypotheses hold of the concrete environment in which the
install succeeds, and the theorem yields exactly one install attempt. -/
theorem C1_witness :
    envConfirmOk.acquire = Except.ok () ∧
    envConfirmOk.check = CheckOutcome.available "2.0.0" ∧
    envConfirmOk.userConfirms = true ∧
    installCount (updateFlow envConfirmOk) = 1 :=
  ⟨rfl, rfl, rfl,
    (C1_confirm_one_install_one_result envConfirmOk "2.0.0" rfl rfl rfl).2.1⟩

/-- C2: for every input string, including the empty string and strings that
contain formatting characters such as braces, greet returns exactly
"Hello, " followed by the name followed by
"! You\x27ve been greeted from Rust!". -/
theorem C2_greet_exact (name : String) :
    greet name = "Hello, " ++ name ++ "! You\x27ve been greeted from Rust!" := by
  obtain ⟨data⟩ := name
  apply String.ext
  simp [greet, rustFormat1, substFmt, String.data_append]

/-- C3: when the updater is acquired but the check itself fails with error e,
exactly one error dialog is shown, its message contains the failure reason
of e, and zero download-and-install attempts are made. -/
theorem C3_check_failed_one_error_dialog (env : UpdaterEnv) (e : String)
    (h1 : env.acquire = Except.ok ()) (h2 : env.check = CheckOutcome.failed e) :
    updateFlow env = [Event.dialog (checkErrorDialog e)] ∧
    errorDialogCount (updateFlow env) = 1 ∧
    dialogCount (updateFlow env) = 1 ∧
    installCount (updateFlow env) = 0 ∧
    (∃ p, (checkErrorDialog e).message = p ++ e) := by
  obtain ⟨acq, chk, conf, inst⟩ := env
  dsimp only at h1 h2
  subst h1; subst h2
  refine ⟨rfl, ?_, ?_, ?_, "Failed to check for updates: ", rfl⟩ <;>
    simp [updateFlow, errorDialogCount, dialogCount, installCount,
      Event.isErrorDialog, Event.isDialog, Event.isInstall, checkErrorDialog]

/-- C3 witness: the hypotheses hold of the concrete check-failure
environment, and the theorem yields the single error dialog. -/
theorem C3_witness :
    envCheckFail.acquire = Except.ok () ∧
    envCheckFail.check = CheckOutcome.failed "x" ∧
    errorDialogCount (updateFlow envCheckFail) = 1 :=
  ⟨rfl, rfl, (C3_check_failed_one_error_dialog envCheckFail "x" rfl rfl).2.1⟩

/-- C4: when the check reports that no update is available, exactly one
informational dialog titled "No Updates" is shown and zero
download-and-install attempts are made. -/
theorem C4_up_to_date_one_info_dialog (env : UpdaterEnv)
    (h1 : env.acquire = Except.ok ()) (h2 : env.check = CheckOutcome.upToDate) :
    updateFlow env = [Event.dialog noUpdatesDialog] ∧
    dialogCount (updateFlow env) = 1 ∧
    installCount (updateFlow env) = 0 ∧
    noUpdatesDialog.title = "No Updates" ∧
    noUpdatesDialog.kind = DialogKind.info := by
  obtain ⟨acq, chk, conf, inst⟩ := env
  dsimp only at h1 h2
  subst h1; subst h2
  refine ⟨rfl, ?_, ?_, rfl, rfl⟩ <;>
    simp [updateFlow, dialogCount, installCount, Event.isDialog, Event.isInstall]

/-- C4 witness: the hypotheses hold of the concrete up-to-date environment,
and the theorem yields the single informational dialog. -/
theorem C4_witness :
    envUpToDate.acquire = Except.ok () ∧
    envUpToDate.check = CheckOutcome.upToDate ∧
    dialogCount (updateFlow envUpToDate) = 1 :=
  ⟨rfl, rfl, (C4_up_to_date_one_info_dialog envUpToDate rfl rfl).2.1⟩

/-- C5: when an update is available and the user declines the confirmation
dialog, zero download-and-install attempts are made and zero dialogs beyond
the confirmation dialog are shown: the trace is exactly the confirmation
dialog. -/
theorem C5_decline_no_install_no_more_dialogs (env : UpdaterEnv) (v : String)
    (h1 : env.acquire = Except.ok ()) (h2 : env.check = CheckOutcome.available v)
    (h3 : env.userConfirms = false) :
    updateFlow env = [Event.dialog (confirmDialog v)] ∧
    installCount (updateFlow env) = 0 ∧
    dialogCount (updateFlow env) = 1 ∧
    (confirmDialog v).buttons = DialogButtons.okCancel := by
  obtain ⟨acq, chk, conf, inst⟩ := env
  dsimp only at h1 h2 h3
  subst h1; subst h2; subst h3
  refine ⟨rfl, ?_, ?_, rfl⟩ <;>
    simp [updateFlow, installCount, dialogCount, Event.isInstall, Event.isDialog]

/-- C5 witness: the hypotheses hold of the concrete declining environment,
and the theorem yields zero install attempts. -/
theorem C5_witness :
    envDecline.acquire = Except.ok () ∧
    envDecline.check = CheckOutcome.available "2.0.0" ∧
    envDecline.userConfirms = false ∧
    installCount (updateFlow envDecline) = 0 :=
  ⟨rfl, rfl, rfl,
    (C5_decline_no_install_no_more_dialogs envDecline "2.0.0" rfl rfl rfl).2.1⟩

/-- C6: for every menu event whose identifier is not "check_updates", the
handler spawns no background task and produces no effect at all. -/
theorem C6_other_identifiers_ignored (id : String) (env : UpdaterEnv)
    (h : id ≠ "check_updates") :
    onMenuEvent id env = none := by
  simp [onMenuEvent, h]

/-- C6 witness: a concrete foreign identifier is ignored. -/
theorem C6_witness :
    "quit" ≠ "check_updates" ∧ onMenuEvent "quit" envConfirmOk = none :=
  ⟨by decide, C6_other_identifiers_ignored "quit" envConfirmOk (by decide)⟩

/-- C7: when acquiring the updater client fails with error e, exactly one
error dialog is shown, its message is "Updater not available: " followed by
the reason of e, and nothing else happens: no check outcome is consumed, no
install attempt is made, no further dialog is shown. -/
theorem C7_updater_unavailable_stops (env : UpdaterEnv) (e : String)
    (h : env.acquire = Except.error e) :
    updateFlow env = [Event.dialog (updaterUnavailableDialog e)] ∧
    (updaterUnavailableDialog e).message = "Updater not available: " ++ e ∧
    (updaterUnavailableDialog e).kind = DialogKind.err ∧
    dialogCount (updateFlow env) = 1 ∧
    installCount (updateFlow env) = 0 := by
  obtain ⟨acq, chk, conf, inst⟩ := env
  dsimp only at h
  subst h
  refine ⟨rfl, rfl, rfl, ?_, ?_⟩ <;>
    simp [updateFlow, dialogCount, installCount, Event.isDialog, Event.isInstall]

/-- C7 witness: the hypothesis holds of the concrete unavailable-updater
environment, and the theorem yields the single error dialog trace. -/
theorem C7_witness :
    envUnavail.acquire = Except.error "x" ∧
    updateFlow envUnavail = [Event.dialog (updaterUnavailableDialog "x")] :=
  ⟨rfl, (C7_updater_unavailable_stops envUnavail "x" rfl).1⟩

/-- C8 counterexample: the check-failure dialog and the updater-unavailable
dialog are two distinct dialogs of the surface that agree on title, icon
class and button set, so the dialogs are not pairwise distinguished by
title and icon class. -/
theorem C8_counterexample :
    Event.dialog (checkErrorDialog "x") ∈ updateFlow envCheckFail ∧
    Event.dialog (updaterUnavailableDialog "x") ∈ updateFlow envUnavail ∧
    (checkErrorDialog "x").title = (updaterUnavailableDialog "x").title ∧
    (checkErrorDialog "x").kind = (updaterUnavailableDialog "x").kind ∧
    (checkErrorDialog "x").buttons = (updaterUnavailableDialog "x").buttons ∧
    checkErrorDialog "x" ≠ updaterUnavailableDialog "x" := by
  decide

/-- C8 amended: every dialog the program can show falls into one of exactly
four title-and-icon classes (Update Available/info, Update Complete/info,
No Updates/info, Update Error/error), each class is reachable, and exactly
the Update Available confirmation dialog carries confirm/cancel buttons;
all others are acknowledge-only.  Three distinct error dialogs share the
Update Error class, so the surface has six dialog sites but only four
title-and-icon classes, not five pairwise distinguished dialogs. -/
theorem C8_amended_four_classes (env : UpdaterEnv) (d : Dialog)
    (h : Event.dialog d ∈ updateFlow env) :
    ((d.title = "Update Available" ∧ d.kind = DialogKind.info) ∨
     (d.title = "Update Complete" ∧ d.kind = DialogKind.info) ∨
     (d.title = "No Updates" ∧ d.kind = DialogKind.info) ∨
     (d.title = "Update Error" ∧ d.kind = DialogKind.err)) ∧
    (d.buttons = DialogButtons.okCancel ↔ d.title = "Update Available") ∧
    Event.dialog (confirmDialog "2.0.0") ∈ updateFlow envDecline ∧
    Event.dialog updateCompleteDialog ∈ updateFlow envConfirmOk ∧
    Event.dialog noUpdatesDialog ∈ updateFlow envUpToDate ∧
    Event.dialog (updaterUnavailableDialog "x") ∈ updateFlow envUnavail := by
  refine ⟨?_, ?_, by decide, by decide, by decide, by decide⟩ <;>
    rcases dialog_shape_of_mem env d h with
      ⟨v, rfl⟩ | ⟨e, rfl⟩ | rfl | rfl | ⟨e, rfl⟩ | ⟨e, rfl⟩ <;>
    simp [confirmDialog, installErrorDialog, updateCompleteDialog,
      noUpdatesDialog, checkErrorDialog, updaterUnavailableDialog]

/-- C8 amended witness: the amended statement instantiated at the single
dialog of the unavailable-updater trace. -/
theorem C8_witness :
    Event.dialog (updaterUnavailableDialog "x") ∈ updateFlow envUnavail ∧
    ((updaterUnavailableDialog "x").buttons = DialogButtons.okCancel ↔
      (updaterUnavailableDialog "x").title = "Update Available") :=
  ⟨by decide,
    (C8_amended_four_classes envUnavail (updaterUnavailableDialog "x")
      (by decide)).2.1⟩

/-- C9: greet is deterministic and depends on nothing but its argument: two
invocations on equal names return equal strings.  Failure-freedom and
absence of side effects hold by the shape of the embedding: greet is a
total function of the name alone. -/
theorem C9_greet_deterministic (n1 n2 : String) (h : n1 = n2) :
    greet n1 = greet n2 := by
  rw [h]

/-- C9 witness: determinism instantiated at a concrete name. -/
theorem C9_witness :
    "Ada" = "Ada" ∧ greet "Ada" = greet "Ada" :=
  ⟨rfl, C9_greet_deterministic "Ada" "Ada" rfl⟩

/-- C10: on the success path the trace is exactly the confirmation dialog,
the install attempt and the acknowledge-only Update Complete dialog; and no
run of the flow, on any path, ever emits a restart event: the application
is never relaunched by this code. -/
theorem C10_success_no_restart (env : UpdaterEnv) (v : String)
    (h1 : env.acquire = Except.ok ()) (h2 : env.check = CheckOutcome.available v)
    (h3 : env.userConfirms = true) (h4 : env.install = Except.ok ()) :
    updateFlow env =
      [Event.dialog (confirmDialog v), Event.installAttempt,
       Event.dialog updateCompleteDialog] ∧
    (∀ env2 : UpdaterEnv, Event.restart ∉ updateFlow env2) ∧
    updateCompleteDialog.title = "Update Complete" ∧
    updateCompleteDialog.buttons = DialogButtons.ok := by
  obtain ⟨acq, chk, conf, inst⟩ := env
  dsimp only at h1 h2 h3 h4
  subst h1; subst h2; subst h3; subst h4
  exact ⟨rfl, restart_not_mem_updateFlow, rfl, rfl⟩

/-- C10 witness: the hypotheses hold of the concrete successful-install
environment, and the theorem yields its exact trace. -/
theorem C10_witness :
    envConfirmOk.acquire = Except.ok () ∧
    envConfirmOk.check = CheckOutcome.available "2.0.0" ∧
    envConfirmOk.userConfirms = true ∧
    envConfirmOk.install = Except.ok () ∧
    updateFlow envConfirmOk =
      [Event.dialog (confirmDialog "2.0.0"), Event.installAttempt,
       Event.dialog updateCompleteDialog] :=
  ⟨rfl, rfl, rfl, rfl,
    (C10_success_no_restart envConfirmOk "2.0.0" rfl rfl rfl rfl).1⟩
